/-
Verification of the sales-analysis data pipeline: CSV ingestion,
SQLite table creation and indexing (`data_loader.py`), and the
dashboard's data loading and query interface (`app.py`),
modelled as a shallow embedding in Lean 4.
-/
import Mathlib

namespace SalesAnalysis

/-! ## Relational store model

A database maps table names to an optional list of rows
(`none` = the table does not exist).  Tables are modelled generically
over the row type `α`: the pipeline never inspects row contents when
creating tables. -/

/-- The relational store: table name → current contents, if the table exists. -/
def Database (α : Type) : Type := String → Option (List α)

/-- Row count of a named table, when it exists (`SELECT COUNT(*) FROM t`). -/
def tableRowCount {α : Type} (db : Database α) (n : String) : Option Nat :=
  (db n).map List.length

/-- `WalmartDataLoader.create_tables` (data_loader.py:64-91): for each
`(table_name, df)` in the datasets mapping, drop any prior table of that
name and write `df` wholesale (`DROP TABLE IF EXISTS` followed by
`to_sql(..., if_exists='replace')`).  The net effect per table is a
plain overwrite. -/
def createTables {α : Type} (datasets : List (String × List α)) (db : Database α) :
    Database α :=
  datasets.foldl (fun d p => Function.update d p.1 (some p.2)) db

/-! ## CSV ingestion model

`load_csv_files` (data_loader.py:31-62) iterates a fixed mapping of
table names to file names; a file that is missing on disk, or whose
parse raises, is logged and skipped, so only successfully parsed files
appear in the returned datasets mapping. -/

/-- Outcome of attempting to read one CSV file: absent on disk,
present but failing to parse, or parsed into a table. -/
inductive FileState (α : Type) : Type
  | missing : FileState α
  | malformed : FileState α
  | good : List α → FileState α

/-- The parsed table, when the read succeeded. -/
def FileState.goodTable {α : Type} : FileState α → Option (List α)
  | .good t => some t
  | _ => none

/-- The fixed table-name → file-name mapping of `load_csv_files`
(data_loader.py:33-38). -/
def csvFiles : List (String × String) :=
  [("train", "train.csv"), ("test", "test.csv"),
   ("features", "features.csv"), ("stores", "stores.csv")]

/-- `WalmartDataLoader.load_csv_files` (data_loader.py:31-62): read each
file of `csvFiles` from the data directory (modelled by `fs`, the state
of each file on disk); a missing or malformed file is logged and
skipped, every successfully parsed file contributes its entry to the
returned datasets mapping. -/
def loadCsvFiles {α : Type} (fs : String → FileState α) : List (String × List α) :=
  csvFiles.filterMap (fun p => ((fs p.2).goodTable).map (fun t => (p.1, t)))

/-! ### Characterisation of `createTables` -/

/-- Unfolding one step of `createTables`. -/
theorem createTables_cons {α : Type} (p : String × List α)
    (ds : List (String × List α)) (db : Database α) :
    createTables (p :: ds) db = createTables ds (Function.update db p.1 (some p.2)) :=
  rfl

/-- A table whose name is not among the datasets' keys is left untouched. -/
theorem createTables_not_mem {α : Type} (datasets : List (String × List α))
    (db : Database α) (n : String) (h : n ∉ datasets.map Prod.fst) :
    createTables datasets db n = db n := by
  induction datasets generalizing db with
  | nil => rfl
  | cons p ds ih =>
    simp only [List.map_cons, List.mem_cons, not_or] at h
    rw [createTables_cons, ih _ h.2, Function.update_noteq h.1]

/-- On a name that the datasets mapping does write, the result does not
depend on the prior database contents: each run replaces the table
wholesale. -/
theorem createTables_mem_indep {α : Type} (datasets : List (String × List α))
    (db₁ db₂ : Database α) (n : String) (h : n ∈ datasets.map Prod.fst) :
    createTables datasets db₁ n = createTables datasets db₂ n := by
  induction datasets generalizing db₁ db₂ with
  | nil => simp at h
  | cons p ds ih =>
    rw [createTables_cons, createTables_cons]
    by_cases hm : n ∈ ds.map Prod.fst
    · exact ih _ _ hm
    · simp only [List.map_cons, List.mem_cons] at h
      rcases h with h | h
      · rw [createTables_not_mem _ _ _ hm, createTables_not_mem _ _ _ hm, h,
          Function.update_same, Function.update_same]
      · exact absurd h hm

/-- `goodTable` returns a table exactly on a successful parse. -/
theorem FileState.goodTable_eq_some {α : Type} (s : FileState α) (t : List α) :
    s.goodTable = some t ↔ s = FileState.good t := by
  cases s <;> simp [FileState.goodTable]

/-- Membership in the datasets mapping returned by `load_csv_files`:
an entry is present exactly when some file of `csvFiles` carries its
name and parsed successfully. -/
theorem mem_loadCsvFiles {α : Type} (fs : String → FileState α) (n : String)
    (t : List α) :
    (n, t) ∈ loadCsvFiles fs ↔ ∃ f, (n, f) ∈ csvFiles ∧ fs f = FileState.good t := by
  constructor
  · intro h
    rcases List.mem_filterMap.1 h with ⟨p, hp, he⟩
    rcases Option.map_eq_some'.1 he with ⟨t', hgt, hpe⟩
    simp only [Prod.mk.injEq] at hpe
    obtain ⟨h1, h2⟩ := hpe
    subst h1; subst h2
    exact ⟨p.2, hp, (FileState.goodTable_eq_some _ _).1 hgt⟩
  · rintro ⟨f, hf, hgood⟩
    refine List.mem_filterMap.2 ⟨(n, f), hf, ?_⟩
    rw [hgood]; rfl

/-- No two entries of `csvFiles` share a table name. -/
theorem csvFiles_name_unique (n f₁ f₂ : String)
    (h₁ : (n, f₁) ∈ csvFiles) (h₂ : (n, f₂) ∈ csvFiles) : f₁ = f₂ := by
  simp only [csvFiles, List.mem_cons, List.not_mem_nil, or_false,
    Prod.mk.injEq] at h₁ h₂
  rcases h₁ with ⟨hn, hf⟩ | ⟨hn, hf⟩ | ⟨hn, hf⟩ | ⟨hn, hf⟩ <;>
    rcases h₂ with ⟨hn', hf'⟩ | ⟨hn', hf'⟩ | ⟨hn', hf'⟩ | ⟨hn', hf'⟩ <;>
    subst hf <;> subst hf' <;> simp_all

/-- C2: ingestion failure of one CSV file is non-fatal and local.  If the
file carrying table `n` is absent or malformed (its parse yields no
table), then `n` is omitted from the datasets mapping returned by
`load_csv_files`, the subsequent `create_tables` run leaves any prior
database table named `n` untouched, and every other file that parsed
successfully is still ingested. -/
theorem c2_failed_file_skipped {α : Type} (fs : String → FileState α)
    (db : Database α) (n f : String) (hmem : (n, f) ∈ csvFiles)
    (hbad : (fs f).goodTable = none) :
    n ∉ (loadCsvFiles fs).map Prod.fst ∧
    createTables (loadCsvFiles fs) db n = db n ∧
    (∀ n' f' t, (n', f') ∈ csvFiles → fs f' = FileState.good t →
      (n', t) ∈ loadCsvFiles fs) := by
  have hkeys : n ∉ (loadCsvFiles fs).map Prod.fst := by
    intro hk
    rcases List.mem_map.1 hk with ⟨⟨n', t⟩, hmem', he⟩
    cases he
    rcases (mem_loadCsvFiles fs n' t).1 hmem' with ⟨f', hf', hgood⟩
    rw [csvFiles_name_unique n' f f' hmem hf'] at hbad
    rw [hgood] at hbad
    simp [FileState.goodTable] at hbad
  refine ⟨hkeys, createTables_not_mem _ _ _ hkeys, ?_⟩
  intro n' f' t hcf hgood
  exact (mem_loadCsvFiles fs n' t).2 ⟨f', hcf, hgood⟩

/-- Witness for C2 at a concrete file system: `train.csv` is malformed,
`stores.csv` parses; the stale `train` table survives and `stores` is
still ingested. -/
def fsEx : String → FileState Nat := fun f =>
  if f = "stores.csv" then FileState.good [5]
  else if f = "train.csv" then FileState.malformed
  else FileState.missing

/-- A database that already holds a `train` table from an earlier run. -/
def dbEx : Database Nat := fun n => if n = "train" then some [1, 2, 3] else none

theorem c2_failed_file_skipped_witness :
    (("train", "train.csv") ∈ csvFiles ∧ (fsEx "train.csv").goodTable = none) ∧
    ("train" ∉ (loadCsvFiles fsEx).map Prod.fst ∧
      createTables (loadCsvFiles fsEx) dbEx "train" = dbEx "train" ∧
      ("stores", [5]) ∈ loadCsvFiles fsEx) := by
  have h := c2_failed_file_skipped fsEx dbEx "train" "train.csv" (by decide) rfl
  exact ⟨⟨by decide, rfl⟩, h.1, h.2.1, h.2.2 "stores" "stores.csv" [5] (by decide) rfl⟩

/-- C1: table creation is idempotent.  Running `create_tables` twice with
the same datasets mapping leaves the whole store, and in particular
every table's row count, identical to running it once: each run
replaces each named table wholesale, independent of prior contents. -/
theorem c1_create_tables_idempotent {α : Type} (datasets : List (String × List α))
    (db : Database α) :
    createTables datasets (createTables datasets db) = createTables datasets db ∧
    ∀ n, tableRowCount (createTables datasets (createTables datasets db)) n =
      tableRowCount (createTables datasets db) n := by
  have h : createTables datasets (createTables datasets db) =
      createTables datasets db := by
    funext n
    by_cases hm : n ∈ datasets.map Prod.fst
    · exact createTables_mem_indep _ _ _ _ hm
    · rw [createTables_not_mem _ _ _ hm, createTables_not_mem _ _ _ hm]
  exact ⟨h, fun n => by rw [h]⟩

/-! ## Sales data model

One row of the `train` table (spec §3, app.py §File Requirements):
`(Store, Dept, Date, Weekly_Sales, IsHoliday)`.  Dates are day numbers,
sales amounts are exact rationals. -/

/-- A row of the `train` (sales) table. -/
structure SalesRow where
  store : Nat
  dept : Nat
  date : Nat
  weeklySales : Rat
  isHoliday : Bool

/-- SQLite `ROUND(x, 2)`: round to two decimal places. -/
def round2 (x : Rat) : Rat := (round (x * 100) : Int) / 100

/-- `SUM(Weekly_Sales)` over a list of sales rows. -/
def salesSum (t : List SalesRow) : Rat := (t.map (fun r => r.weeklySales)).sum

/-- `SELECT COUNT(*) FROM train`: the engine scans the rows, incrementing
a counter (data_loader.py:127, app.py:598). -/
def countStar (t : List SalesRow) : Nat := t.foldl (fun acc _ => acc + 1) 0

/-- `COUNT(DISTINCT Store)`. -/
def uniqueStores (t : List SalesRow) : Nat := ((t.map (fun r => r.store)).dedup).length

/-- `COUNT(DISTINCT Dept)`. -/
def uniqueDepts (t : List SalesRow) : Nat := ((t.map (fun r => r.dept)).dedup).length

/-- The result row of the "Basic Overview" catalog query
(app.py:596-606). -/
structure OverviewRow where
  total_records : Nat
  unique_stores : Nat
  unique_departments : Nat
  total_sales : Rat
  avg_weekly_sales : Rat

/-- The "Basic Overview" aggregate over the `train` table
(app.py:596-606). -/
def basicOverview (t : List SalesRow) : OverviewRow :=
  { total_records := countStar t
    unique_stores := uniqueStores t
    unique_departments := uniqueDepts t
    total_sales := round2 (salesSum t)
    avg_weekly_sales := round2 (salesSum t / countStar t) }

/-- `SUM(Weekly_Sales)` restricted to one store (`GROUP BY Store`). -/
def perStoreSales (t : List SalesRow) (s : Nat) : Rat :=
  ((t.filter (fun r => r.store == s)).map (fun r => r.weeklySales)).sum

/-- The per-store `GROUP BY Store` aggregate of the "Top 10 Stores"
catalog query (app.py:608-617), over all stores (the trailing
`ORDER BY ... LIMIT 10` only selects which groups are displayed):
one `(Store, ROUND(SUM(Weekly_Sales), 2))` row per distinct store. -/
def topStoresGroupBy (t : List SalesRow) : List (Nat × Rat) :=
  ((t.map (fun r => r.store)).dedup).map (fun s => (s, round2 (perStoreSales t s)))

/-- The rows of one department (`GROUP BY Dept` fiber). -/
def deptRows (t : List SalesRow) (d : Nat) : List SalesRow :=
  t.filter (fun r => r.dept == d)

/-- The distinct departments present in the table: the group keys of
`GROUP BY Dept` (equally, of the pandas `groupby('Dept')` in
`show_department_analysis`, app.py:393-400). -/
def deptGroups (t : List SalesRow) : List Nat := (t.map (fun r => r.dept)).dedup

/-- One result row of the "Department Performance" aggregate
(app.py:620-631); the pandas variant's standard-deviation column is
omitted (it is irrational-valued and unused by any claim). -/
structure DeptAgg where
  dept : Nat
  records : Nat
  stores : Nat
  total_sales : Rat
  avg_sales : Rat

/-- The department-performance `GROUP BY Dept` aggregate
(app.py:620-631, app.py:393-400): one aggregate row per distinct
department present in the table. -/
def deptPerformance (t : List SalesRow) : List DeptAgg :=
  (deptGroups t).map (fun d =>
    { dept := d
      records := (deptRows t d).length
      stores := ((deptRows t d).map (fun r => r.store)).dedup.length
      total_sales := round2 (((deptRows t d).map (fun r => r.weeklySales)).sum)
      avg_sales := round2 ((((deptRows t d).map (fun r => r.weeklySales)).sum) /
        (deptRows t d).length) })

/-- Row scanning computes the length. -/
theorem countStar_go (t : List SalesRow) (k : Nat) :
    t.foldl (fun acc _ => acc + 1) k = k + t.length := by
  induction t generalizing k with
  | nil => simp
  | cons r t ih => rw [List.foldl_cons, ih, List.length_cons]; omega

/-- C4: on a `train` table of exactly `N` rows, the "total records"
aggregate (`SELECT COUNT(*) FROM train`, run both by
`run_basic_queries` and by the "Basic Overview" catalog query)
returns `N`. -/
theorem c4_count_star_eq_rows (t : List SalesRow) :
    countStar t = t.length ∧ (basicOverview t).total_records = t.length := by
  have h : countStar t = t.length := by rw [countStar, countStar_go]; omega
  exact ⟨h, h⟩

/-- C6: grouping introduces no phantom groups.  If no row of the sales
table has department `d`, then the department-performance aggregate
contains no row for `d`. -/
theorem c6_no_phantom_dept (t : List SalesRow) (d : Nat)
    (h : ∀ r ∈ t, r.dept ≠ d) :
    ∀ row ∈ deptPerformance t, row.dept ≠ d := by
  intro row hrow
  rcases List.mem_map.1 hrow with ⟨d', hd', he⟩
  have hdept : row.dept = d' := by rw [← he]
  rw [hdept]
  have : d' ∈ t.map (fun r => r.dept) := List.mem_dedup.1 hd'
  rcases List.mem_map.1 this with ⟨r, hr, hrd⟩
  rw [← hrd]
  exact h r hr

/-- A concrete two-department table with no rows for department 99. -/
def tEx6 : List SalesRow :=
  [⟨1, 1, 0, ((3 : Int) : Rat) / 100, false⟩,
   ⟨2, 2, 7, ((7 : Int) : Rat) / 100, true⟩]

theorem c6_no_phantom_dept_witness :
    (∀ r ∈ tEx6, r.dept ≠ 99) ∧ ∀ row ∈ deptPerformance tEx6, row.dept ≠ 99 := by
  have h : ∀ r ∈ tEx6, r.dept ≠ 99 := by
    intro r hr
    rcases List.mem_cons.1 hr with rfl | hr'
    · decide
    · rcases List.mem_cons.1 hr' with rfl | hr''
      · decide
      · exact absurd hr'' (List.not_mem_nil r)
  exact ⟨h, c6_no_phantom_dept tEx6 99 h⟩

/-! ## Partition consistency of `GROUP BY Store` (C5) -/

/-- Pointwise sums distribute over a mapped list. -/
theorem sum_map_add {κ : Type} (l : List κ) (f g : κ → Rat) :
    (l.map (fun k => f k + g k)).sum = (l.map f).sum + (l.map g).sum := by
  induction l with
  | nil => simp
  | cons b l ih => simp only [List.map_cons, List.sum_cons, ih]; ring

/-- A single-hit indicator sums to zero when the key is absent. -/
theorem sum_map_ite_of_not_mem (l : List Nat) (a : Nat) (c : Rat) (ha : a ∉ l) :
    (l.map (fun k => if a = k then c else 0)).sum = 0 := by
  induction l with
  | nil => simp
  | cons b l ih =>
    simp only [List.mem_cons, not_or] at ha
    rw [List.map_cons, List.sum_cons, if_neg ha.1, zero_add, ih ha.2]

/-- A single-hit indicator over a duplicate-free list containing the key
sums to exactly the hit. -/
theorem sum_map_ite_of_mem (l : List Nat) (a : Nat) (c : Rat) (hn : l.Nodup)
    (ha : a ∈ l) :
    (l.map (fun k => if a = k then c else 0)).sum = c := by
  induction l with
  | nil => simp at ha
  | cons b l ih =>
    rcases List.mem_cons.1 ha with rfl | ha'
    · rw [List.map_cons, List.sum_cons, if_pos rfl,
        sum_map_ite_of_not_mem l a c (List.nodup_cons.1 hn).1, add_zero]
    · have hab : a ≠ b := fun he => (List.nodup_cons.1 hn).1 (he ▸ ha')
      rw [List.map_cons, List.sum_cons, if_neg hab, zero_add,
        ih (List.nodup_cons.1 hn).2 ha']

/-- Filtering on an absent key yields no rows. -/
theorem filter_key_eq_nil {α : Type} (key : α → Nat) (t : List α) (k : Nat)
    (h : k ∉ t.map key) : t.filter (fun r => key r == k) = [] := by
  induction t with
  | nil => rfl
  | cons r t ih =>
    simp only [List.map_cons, List.mem_cons, not_or] at h
    have hne : ¬((key r == k) = true) := by
      simp only [beq_iff_eq]
      exact fun he => h.1 he.symm
    rw [List.filter_cons, if_neg hne]
    exact ih h.2

/-- Partitioning a list by its distinct keys and summing the fibers
recovers the total sum: the group-by fibers partition the rows. -/
theorem sum_dedup_filter {α : Type} (key : α → Nat) (val : α → Rat) :
    ∀ t : List α,
    (((t.map key).dedup).map
      (fun k => ((t.filter (fun r => key r == k)).map val).sum)).sum
      = (t.map val).sum := by
  intro t
  induction t with
  | nil => simp
  | cons r t ih =>
    have hfib : ∀ k, ((((r :: t).filter (fun x => key x == k)).map val).sum)
        = (if key r = k then val r else 0)
          + ((t.filter (fun x => key x == k)).map val).sum := by
      intro k
      by_cases hk : key r = k
      · have hb : (key r == k) = true := by simp [hk]
        rw [List.filter_cons, if_pos hb, List.map_cons, List.sum_cons, if_pos hk]
      · have hb : ¬((key r == k) = true) := by simp [hk]
        rw [List.filter_cons, if_neg hb, if_neg hk, zero_add]
    by_cases hm : key r ∈ t.map key
    · rw [List.map_cons, List.dedup_cons_of_mem hm]
      calc (((t.map key).dedup).map
            (fun k => (((r :: t).filter (fun x => key x == k)).map val).sum)).sum
          = (((t.map key).dedup).map
            (fun k => (if key r = k then val r else 0)
              + ((t.filter (fun x => key x == k)).map val).sum)).sum := by
            exact congrArg List.sum (List.map_congr_left (fun k _ => hfib k))
        _ = (((t.map key).dedup).map (fun k => if key r = k then val r else 0)).sum
              + (((t.map key).dedup).map
                (fun k => ((t.filter (fun x => key x == k)).map val).sum)).sum := by
            exact sum_map_add _ _ _
        _ = val r + (t.map val).sum := by
            rw [ih, sum_map_ite_of_mem _ _ _ (List.nodup_dedup _)
              (List.mem_dedup.2 hm)]
        _ = ((r :: t).map val).sum := by rw [List.map_cons, List.sum_cons]
    · rw [List.map_cons, List.dedup_cons_of_not_mem hm, List.map_cons, List.sum_cons]
      have h0 : ((t.filter (fun x => key x == key r)).map val).sum = 0 := by
        rw [filter_key_eq_nil key t (key r) hm]; rfl
      rw [hfib (key r), if_pos rfl, h0, add_zero]
      have htail : (((t.map key).dedup).map
          (fun k => (((r :: t).filter (fun x => key x == k)).map val).sum)).sum
          = (((t.map key).dedup).map
            (fun k => ((t.filter (fun x => key x == k)).map val).sum)).sum := by
        refine congrArg List.sum (List.map_congr_left (fun k hk => ?_))
        have hkr : ¬(key r = k) := fun he =>
          hm (he ▸ List.mem_dedup.1 hk)
        rw [hfib k, if_neg hkr, zero_add]
      rw [htail, ih, List.map_cons, List.sum_cons]

/-! ### Whole-cent amounts and rounding -/

/-- A rational amount that is a whole number of cents. -/
def IsCents (x : Rat) : Prop := ∃ n : Int, x = (n : Rat) / 100

theorem IsCents.zero : IsCents 0 := ⟨0, by simp⟩

theorem IsCents.add {x y : Rat} (hx : IsCents x) (hy : IsCents y) :
    IsCents (x + y) := by
  rcases hx with ⟨n, rfl⟩
  rcases hy with ⟨m, rfl⟩
  exact ⟨n + m, by push_cast; ring⟩

theorem isCents_sum (l : List Rat) (h : ∀ x ∈ l, IsCents x) : IsCents l.sum := by
  induction l with
  | nil => exact IsCents.zero
  | cons x l ih =>
    rw [List.sum_cons]
    exact (h x (List.mem_cons_self x l)).add
      (ih (fun y hy => h y (List.mem_cons_of_mem x hy)))

/-- `ROUND(x, 2)` is the identity on whole-cent amounts. -/
theorem round2_of_isCents {x : Rat} (h : IsCents x) : round2 x = x := by
  rcases h with ⟨n, rfl⟩
  rw [round2, div_mul_cancel₀ (b := (100 : Rat)) _ (by norm_num), round_intCast]

/-- Two stores, each holding a single half-cent sale: per-store rounding
then summing gives 0.02, while rounding the global sum gives 0.01. -/
def tCex5 : List SalesRow :=
  [⟨1, 1, 0, ((1 : Int) : Rat) / 200, false⟩,
   ⟨2, 1, 0, ((1 : Int) : Rat) / 200, false⟩]

/-- C5 as stated is false: the catalog queries apply `ROUND(..., 2)` to
each per-store subtotal and to the global total separately, and rounding
does not commute with summation.  On `tCex5` the per-store totals sum to
`2/100` while the overview total is `1/100`. -/
theorem c5_partition_counterexample :
    ¬ (∀ t : List SalesRow,
        ((topStoresGroupBy t).map Prod.snd).sum = (basicOverview t).total_sales) := by
  intro h
  have hc := h tCex5
  have e5 : (tCex5.map (fun r => r.store)).dedup = [1, 2] := by decide
  have e1 : perStoreSales tCex5 1 = ((1 : Int) : Rat) / 200 := by
    simp [perStoreSales, tCex5]
  have e2 : perStoreSales tCex5 2 = ((1 : Int) : Rat) / 200 := by
    simp [perStoreSales, tCex5]
  have eL : ((topStoresGroupBy tCex5).map Prod.snd).sum
      = round2 (perStoreSales tCex5 1) + (round2 (perStoreSales tCex5 2) + 0) := by
    rw [topStoresGroupBy, e5]; simp
  have eS : salesSum tCex5 = ((1 : Int) : Rat) / 200 + (((1 : Int) : Rat) / 200 + 0) := by
    simp [salesSum, tCex5]
  rw [eL, e1, e2] at hc
  have eR : (basicOverview tCex5).total_sales = round2 (salesSum tCex5) := rfl
  rw [eR, eS] at hc
  norm_num [round2, round_eq] at hc

/-- C5, amended: when every `Weekly_Sales` amount is a whole number of
cents (as dollars-and-cents sales data is), `ROUND(..., 2)` is the
identity on every subtotal, and the per-store totals of the
`GROUP BY Store` aggregate sum exactly to the overview's global total. -/
theorem c5_partition_cents (t : List SalesRow)
    (h : ∀ r ∈ t, IsCents r.weeklySales) :
    ((topStoresGroupBy t).map Prod.snd).sum = (basicOverview t).total_sales := by
  have hcents : ∀ s, IsCents (perStoreSales t s) := by
    intro s
    refine isCents_sum _ (fun x hx => ?_)
    rcases List.mem_map.1 hx with ⟨r, hr, rfl⟩
    exact h r (List.mem_of_mem_filter hr)
  have eL : ((topStoresGroupBy t).map Prod.snd).sum
      = (((t.map (fun r => r.store)).dedup).map (fun s => perStoreSales t s)).sum := by
    rw [topStoresGroupBy, List.map_map]
    exact congrArg List.sum
      (List.map_congr_left (fun s _ => round2_of_isCents (hcents s)))
  have eP : (((t.map (fun r => r.store)).dedup).map (fun s => perStoreSales t s)).sum
      = salesSum t := by
    simp only [perStoreSales, salesSum]
    exact sum_dedup_filter (fun r => r.store) (fun r => r.weeklySales) t
  have eR : (basicOverview t).total_sales = salesSum t := by
    have : IsCents (salesSum t) :=
      isCents_sum _ (fun x hx => by
        rcases List.mem_map.1 hx with ⟨r, hr, rfl⟩
        exact h r hr)
    rw [show (basicOverview t).total_sales = round2 (salesSum t) from rfl,
      round2_of_isCents this]
  rw [eL, eP, eR]

/-- A concrete whole-cent table for the amended C5. -/
def tEx5 : List SalesRow :=
  [⟨1, 3, 0, ((3 : Int) : Rat) / 100, false⟩,
   ⟨2, 3, 0, ((7 : Int) : Rat) / 100, true⟩]

theorem c5_partition_cents_witness :
    (∀ r ∈ tEx5, IsCents r.weeklySales) ∧
    ((topStoresGroupBy tEx5).map Prod.snd).sum = (basicOverview tEx5).total_sales := by
  have h : ∀ r ∈ tEx5, IsCents r.weeklySales := by
    intro r hr
    rcases List.mem_cons.1 hr with rfl | hr'
    · exact ⟨3, rfl⟩
    · rcases List.mem_cons.1 hr' with rfl | hr''
      · exact ⟨7, rfl⟩
      · exact absurd hr'' (List.not_mem_nil r)
  exact ⟨h, c5_partition_cents tEx5 h⟩

/-! ## Dashboard sample data (`load_sample_data`, app.py:72-119)

The generator draws from numpy's global random state.  The pseudo-random
source is modelled abstractly as a state type `G` with the drawing
primitives the code uses; `np.random.seed(42)` replaces the ambient
state with the state determined by the constant 42. -/

/-- A row of the `stores` table. -/
structure StoreRow where
  store : Nat
  typ : Char
  size : Nat

/-- A row of the `features` table. -/
structure FeatRow where
  store : Nat
  date : Nat
  temperature : Rat
  fuelPrice : Rat
  cpi : Rat
  unemployment : Rat

/-- The pseudo-random primitives `load_sample_data` uses, over an
abstract generator state `G`: `np.random.seed`, `np.random.normal`,
`np.random.randint`, and the two `np.random.choice` instantiations. -/
structure RngImpl (G : Type) where
  seed : Nat → G
  normal : Rat → Rat → G → Rat × G
  randint : Nat → Nat → G → Nat × G
  choiceChar : List Char → List Rat → G → Char × G
  choiceBool : List Bool → List Rat → G → Bool × G

/-- Draw `n` values in sequence, threading the generator state (one
numpy array-valued draw of size `n`). -/
def drawN {G β : Type} (draw : G → β × G) : Nat → G → List β × G
  | 0, g => ([], g)
  | n + 1, g =>
    let p := draw g
    let q := drawN draw n p.2
    (p.1 :: q.1, q.2)

/-- Calendar months covered by `pd.date_range('2010-02-01', ..., freq='W')[:52]`:
month number and length, starting February 2010. -/
def monthTable : List (Nat × Nat) :=
  [(2, 28), (3, 31), (4, 30), (5, 31), (6, 30), (7, 31), (8, 31),
   (9, 30), (10, 31), (11, 30), (12, 31), (1, 31), (2, 28)]

/-- Month containing day `d` (days since 2010-02-01). -/
def monthOfDayAux : List (Nat × Nat) → Nat → Nat
  | [], _ => 0
  | (m, len) :: rest, d => if d < len then m else monthOfDayAux rest (d - len)

/-- Day number (since 2010-02-01) of the `i`-th weekly date: the range
starts on Sunday 2010-02-07. -/
def weekDay (i : Nat) : Nat := 6 + 7 * i

/-- Calendar month of the `i`-th weekly date (`date.month`). -/
def weekMonth (i : Nat) : Nat := monthOfDayAux monthTable (weekDay i)

/-- The `stores` sample frame (app.py:77-81): stores 1..45, a 45-draw
`Type` array then a 45-draw `Size` array. -/
def genStores {G : Type} (impl : RngImpl G) (g : G) : List StoreRow × G :=
  let tp := drawN (impl.choiceChar ['A', 'B', 'C'] [3/10, 4/10, 3/10]) 45 g
  let sz := drawN (impl.randint 50000 200000) 45 tp.2
  ((List.range 45).map (fun i => ⟨i + 1, tp.1.getD i 'A', sz.1.getD i 0⟩), sz.2)

/-- One cell of the sample `train` frame (app.py:90-100): base sales
`normal(15000, 5000)`, seasonal factor 1.2 in November/December, noise
`normal(0, 2000)`, clamped at 0, and a 10%-holiday flag. -/
def genSaleCell {G : Type} (impl : RngImpl G) (store dept i : Nat) (g : G) :
    SalesRow × G :=
  let base := impl.normal 15000 5000 g
  let seasonal : Rat := if weekMonth i = 11 ∨ weekMonth i = 12 then 12/10 else 1
  let noise := impl.normal 0 2000 base.2
  let ws := max 0 (base.1 * seasonal + noise.1)
  let hol := impl.choiceBool [true, false] [1/10, 9/10] noise.2
  (⟨store, dept, weekDay i, ws, hol.1⟩, hol.2)

/-- The sample `train` frame (app.py:85-102): stores 1..10 × departments
1..20 × the first 52 weekly dates, rows appended in loop order. -/
def genTrain {G : Type} (impl : RngImpl G) (g : G) : List SalesRow × G :=
  (List.range 10).foldl (fun acc s =>
    (List.range 20).foldl (fun acc d =>
      (List.range 52).foldl (fun acc i =>
        let p := genSaleCell impl (s + 1) (d + 1) i acc.2
        (acc.1 ++ [p.1], p.2)) acc) acc) ([], g)

/-- One row of the sample `features` frame (app.py:108-115). -/
def genFeatCell {G : Type} (impl : RngImpl G) (store i : Nat) (g : G) :
    FeatRow × G :=
  let te := impl.normal 70 20 g
  let fu := impl.normal (7/2) (1/2) te.2
  let cp := impl.normal 200 20 fu.2
  let un := impl.normal 8 2 cp.2
  (⟨store, weekDay i, te.1, fu.1, cp.1, un.1⟩, un.2)

/-- The sample `features` frame (app.py:105-117): stores 1..10 × the
first 52 weekly dates. -/
def genFeatures {G : Type} (impl : RngImpl G) (g : G) : List FeatRow × G :=
  (List.range 10).foldl (fun acc s =>
    (List.range 52).foldl (fun acc i =>
      let p := genFeatCell impl (s + 1) i acc.2
      (acc.1 ++ [p.1], p.2)) acc) ([], g)

/-- The three sample frames: `(train, stores, features)`. -/
def SampleTables : Type := List SalesRow × List StoreRow × List FeatRow

/-- `SalesAnalysisApp.load_sample_data` (app.py:72-119): seed the global
random state with the constant 42 — discarding whatever state `g` it
held — then generate the stores, train and features frames in order. -/
def loadSampleData {G : Type} (impl : RngImpl G) (g : G) : SampleTables :=
  let g0 := impl.seed 42
  let st := genStores impl g0
  let tr := genTrain impl st.2
  let ft := genFeatures impl tr.2
  (tr.1, st.1, ft.1)

/-- C10: sample-data generation is deterministic.  Because
`load_sample_data` starts by reseeding the generator with the fixed
constant 42, its output does not depend on the ambient random state:
any two calls yield identical train, stores and features frames. -/
theorem c10_sample_data_deterministic {G : Type} (impl : RngImpl G) (g₁ g₂ : G) :
    loadSampleData impl g₁ = loadSampleData impl g₂ ∧
    (loadSampleData impl g₁).1 = (loadSampleData impl g₂).1 ∧
    (loadSampleData impl g₁).2.1 = (loadSampleData impl g₂).2.1 ∧
    (loadSampleData impl g₁).2.2 = (loadSampleData impl g₂).2.2 :=
  ⟨rfl, rfl, rfl, rfl⟩

/-! ## Dashboard data loading (`load_data`, app.py:121-141) -/

/-- The on-disk database contents visible to the dashboard. -/
structure DB where
  train : List SalesRow
  stores : List StoreRow
  features : List FeatRow

/-- Frames actually loaded into the dashboard together with the
real-data flag (`load_data`'s return value). -/
def LoadedData : Type := SampleTables × Bool

/-- `SalesAnalysisApp.load_data` (app.py:121-141 with `connect_db`,
app.py:59-70).  `db?` is `none` when the database file is missing or the
connection raises (`connect_db` returns `False`); `readErr db` is the
exception message, if any, raised while reading the three tables or
converting their date columns.  A successful read takes the first 10000
train rows and the first 5000 features rows (`LIMIT` clauses,
app.py:125-127); any failure falls back to `load_sample_data` with the
real-data flag cleared. -/
def loadData {G : Type} (impl : RngImpl G) (g : G) (db? : Option DB)
    (readErr : DB → Option String) : LoadedData :=
  match db? with
  | none => (loadSampleData impl g, false)
  | some db =>
    match readErr db with
    | some _ => (loadSampleData impl g, false)
    | none => ((db.train.take 10000, db.stores, db.features.take 5000), true)

/-- The sidebar "Records" metric (app.py:193): the length of the loaded
train frame. -/
def recordsMetric (fr : SampleTables) : Nat := fr.1.length

/-- The home-page "Total Sales" metric (app.py:235): summed over the
loaded train frame. -/
def totalSalesMetric (fr : SampleTables) : Rat := salesSum fr.1

/-! ## Query runner (`run_sql_query`, app.py:143-161 and
`show_sql_interface`, app.py:584-684) -/

/-- A query result: rows of rendered cells. -/
def QueryResult : Type := List (List String)

/-- The database engine as seen by the query runner: a query string in,
a result or an error out. -/
def Engine : Type := String → Except String QueryResult

/-- `SalesAnalysisApp.run_sql_query` (app.py:143-161): when the database
is available, hand the query text to the engine and display the result,
catching any engine error as a user-visible message.  The second
component records the exact query texts submitted to the engine, in
order. -/
def runSqlQuery (engine : Engine) (dataLoaded : Bool) (q : String) :
    Option QueryResult × List String :=
  if dataLoaded then
    match engine q with
    | .ok res => (some res, [q])
    | .error _ => (none, [q])
  else (none, [])

/-- The fixed catalog of the SQL interface (app.py:595-653), keyed by
display name. -/
def queryOptions : List (String × String) :=
  [("Basic Overview",
    "SELECT COUNT(*) as total_records, COUNT(DISTINCT Store) as unique_stores, COUNT(DISTINCT Dept) as unique_departments, MIN(Date) as earliest_date, MAX(Date) as latest_date, ROUND(SUM(Weekly_Sales), 2) as total_sales, ROUND(AVG(Weekly_Sales), 2) as avg_weekly_sales FROM train;"),
   ("Top 10 Stores",
    "SELECT Store, COUNT(*) as records, ROUND(SUM(Weekly_Sales), 2) as total_sales, ROUND(AVG(Weekly_Sales), 2) as avg_sales FROM train GROUP BY Store ORDER BY total_sales DESC LIMIT 10;"),
   ("Department Performance",
    "SELECT Dept, COUNT(*) as records, COUNT(DISTINCT Store) as stores, ROUND(SUM(Weekly_Sales), 2) as total_sales, ROUND(AVG(Weekly_Sales), 2) as avg_sales FROM train GROUP BY Dept ORDER BY total_sales DESC LIMIT 15;"),
   ("Monthly Sales Trend",
    "SELECT strftime('%Y-%m', Date) as month_year, ROUND(SUM(Weekly_Sales), 2) as monthly_sales, ROUND(AVG(Weekly_Sales), 2) as avg_weekly_sales, COUNT(DISTINCT Store) as active_stores FROM train GROUP BY strftime('%Y-%m', Date) ORDER BY month_year;"),
   ("Holiday Impact",
    "SELECT IsHoliday, COUNT(*) as record_count, ROUND(AVG(Weekly_Sales), 2) as avg_sales, ROUND(SUM(Weekly_Sales), 2) as total_sales FROM train GROUP BY IsHoliday;")]

/-- Running a catalog query (app.py:656-660): the stored text is handed
to `run_sql_query` unchanged. -/
def runSelectedQuery (engine : Engine) (dataLoaded : Bool) (sel : String) :
    Option QueryResult × List String :=
  match queryOptions.lookup sel with
  | some q => runSqlQuery engine dataLoaded q
  | none => (none, [])

/-- Python's `custom_query.strip()` truthiness test: a string is blank
exactly when every character is whitespace. -/
def isBlank (s : String) : Bool := s.data.all Char.isWhitespace

/-- Running the free-form query box (app.py:675-679): if the typed text
is non-blank after stripping, the original (unstripped, unsanitized)
text is handed to `run_sql_query`; a blank box is an input error and
nothing runs. -/
def runCustomQuery (engine : Engine) (dataLoaded : Bool) (txt : String) :
    Option QueryResult × List String :=
  if isBlank txt then (none, []) else runSqlQuery engine dataLoaded txt

/-- C3: every query string submitted to the Query Runner — from the
fixed catalog or the free-form box — reaches the database engine
verbatim: the engine receives exactly the given text, with no
sanitization, rewriting or read-only restriction, so any valid
statement, destructive ones included, is executed as given. -/
theorem c3_query_passed_verbatim (engine : Engine) (q : String) :
    (runSqlQuery engine true q).2 = [q] ∧
    (∀ sel q', queryOptions.lookup sel = some q' →
      (runSelectedQuery engine true sel).2 = [q']) ∧
    (∀ txt, isBlank txt = false → (runCustomQuery engine true txt).2 = [txt]) := by
  refine ⟨?_, ?_, ?_⟩
  · cases h : engine q <;> simp [runSqlQuery, h]
  · intro sel q' hsel
    cases h : engine q' <;> simp [runSelectedQuery, hsel, runSqlQuery, h]
  · intro txt ht
    cases h : engine txt <;> simp [runCustomQuery, ht, runSqlQuery, h]

/-- An engine that accepts every statement. -/
def engineOk : Engine := fun _ => Except.ok []

theorem c3_query_passed_verbatim_witness :
    (runSqlQuery engineOk true "DROP TABLE train;").2 = ["DROP TABLE train;"] ∧
    (queryOptions.lookup "Holiday Impact" =
      some "SELECT IsHoliday, COUNT(*) as record_count, ROUND(AVG(Weekly_Sales), 2) as avg_sales, ROUND(SUM(Weekly_Sales), 2) as total_sales FROM train GROUP BY IsHoliday;" ∧
      (runSelectedQuery engineOk true "Holiday Impact").2 =
        ["SELECT IsHoliday, COUNT(*) as record_count, ROUND(AVG(Weekly_Sales), 2) as avg_sales, ROUND(SUM(Weekly_Sales), 2) as total_sales FROM train GROUP BY IsHoliday;"]) ∧
    (isBlank "DELETE FROM train;" = false ∧
      (runCustomQuery engineOk true "DELETE FROM train;").2 = ["DELETE FROM train;"]) := by
  refine ⟨(c3_query_passed_verbatim engineOk "DROP TABLE train;").1, ⟨rfl, ?_⟩, ⟨?_, ?_⟩⟩
  · exact (c3_query_passed_verbatim engineOk "x").2.1 "Holiday Impact" _ rfl
  · decide
  · exact (c3_query_passed_verbatim engineOk "x").2.2 "DELETE FROM train;" (by decide)

/-- C7: failure handling of the dashboard.  Loading falls back to the
synthetic sample data, flagged as not real, when the database is missing
or any read from it fails; a successful read is flagged as real data.
Query execution catches engine errors at the operation boundary,
yielding no result instead of terminating, and submits the query to the
engine exactly once — no failed operation is retried. -/
theorem c7_failures_nonfatal {G : Type} (impl : RngImpl G) (g : G)
    (db? : Option DB) (readErr : DB → Option String) (engine : Engine) :
    (db? = none → loadData impl g db? readErr = (loadSampleData impl g, false)) ∧
    (∀ db e, db? = some db → readErr db = some e →
      loadData impl g db? readErr = (loadSampleData impl g, false)) ∧
    (∀ db, db? = some db → readErr db = none →
      (loadData impl g db? readErr).2 = true) ∧
    (∀ q e, engine q = Except.error e → runSqlQuery engine true q = (none, [q])) ∧
    (∀ q, (runSqlQuery engine true q).2.length ≤ 1) := by
  refine ⟨?_, ?_, ?_, ?_, ?_⟩
  · rintro rfl; rfl
  · rintro db e rfl he; simp [loadData, he]
  · rintro db rfl he; simp [loadData, he]
  · intro q e he; simp [runSqlQuery, he]
  · intro q
    cases h : engine q <;> simp [runSqlQuery, h]

/-- A linear congruential stand-in generator, to instantiate the
abstract random interface at a concrete state type. -/
def lcg (s : Nat) : Nat := (s * 1103515245 + 12345) % 4294967296

/-- A concrete instantiation of the random primitives over `Nat` state. -/
def implEx : RngImpl Nat :=
  { seed := fun n => n
    normal := fun mu sigma g =>
      (mu + sigma * (((lcg g % 2001 : Nat) : Rat) - 1000) / 1000, lcg g)
    randint := fun lo hi g => (lo + lcg g % (hi - lo), lcg g)
    choiceChar := fun opts _ g => (opts.getD (lcg g % opts.length) 'A', lcg g)
    choiceBool := fun opts _ g => (opts.getD (lcg g % opts.length) true, lcg g) }

/-- An engine whose every query fails. -/
def engineDown : Engine := fun _ => Except.error "no such table"

theorem c7_failures_nonfatal_witness :
    loadData implEx 7 none (fun _ => none) = (loadSampleData implEx 7, false) ∧
    runSqlQuery engineDown true "SELECT 1;" = (none, ["SELECT 1;"]) :=
  ⟨(c7_failures_nonfatal implEx 7 none (fun _ => none) engineDown).1 rfl,
   (c7_failures_nonfatal implEx 7 none (fun _ => none) engineDown).2.2.2.1
     "SELECT 1;" "no such table" rfl⟩

/-- C9: the dashboard reads at most 10000 train rows and 5000 features
rows (`LIMIT` clauses, app.py:125-127).  On a database whose train
table exceeds 10000 rows, every metric derived from the loaded frame —
the sidebar Records count, the total-sales sum — is computed over the
truncated prefix, not the full table. -/
theorem c9_load_data_truncates {G : Type} (impl : RngImpl G) (g : G) (db : DB)
    (readErr : DB → Option String) (hok : readErr db = none)
    (hbig : db.train.length > 10000) :
    (loadData impl g (some db) readErr).1.1 = db.train.take 10000 ∧
    (loadData impl g (some db) readErr).1.2.2 = db.features.take 5000 ∧
    recordsMetric (loadData impl g (some db) readErr).1 = 10000 ∧
    recordsMetric (loadData impl g (some db) readErr).1 ≠ db.train.length ∧
    totalSalesMetric (loadData impl g (some db) readErr).1 =
      salesSum (db.train.take 10000) := by
  have e : loadData impl g (some db) readErr
      = ((db.train.take 10000, db.stores, db.features.take 5000), true) := by
    simp [loadData, hok]
  have hlen : (db.train.take 10000).length = 10000 := by
    rw [List.length_take]
    omega
  refine ⟨by rw [e], by rw [e], ?_, ?_, by rw [e]; rfl⟩
  · rw [e, recordsMetric]; exact hlen
  · rw [e, recordsMetric]
    simp only [hlen]
    omega

/-- An 10001-row train table. -/
def dbBig : DB := ⟨List.replicate 10001 ⟨1, 1, 0, 0, false⟩, [], []⟩

theorem c9_load_data_truncates_witness :
    ((fun _ => none : DB → Option String) dbBig = none ∧
      dbBig.train.length > 10000) ∧
    recordsMetric (loadData implEx 0 (some dbBig) (fun _ => none)).1 = 10000 ∧
    recordsMetric (loadData implEx 0 (some dbBig) (fun _ => none)).1 ≠
      dbBig.train.length := by
  have hbig : dbBig.train.length > 10000 := by
    show (List.replicate 10001 (⟨1, 1, 0, 0, false⟩ : SalesRow)).length > 10000
    rw [List.length_replicate]
    omega
  have h := c9_load_data_truncates implEx 0 dbBig (fun _ => none) rfl hbig
  exact ⟨⟨rfl, hbig⟩, h.2.2.1, h.2.2.2.1⟩

/-! ## Index creation (`create_indexes`, data_loader.py:93-119) -/

/-- The `CREATE INDEX IF NOT EXISTS` statements of `create_indexes`
(data_loader.py:98-106), as (table, columns) pairs, in execution
order. -/
def createIndexesStmts : List (String × List String) :=
  [("train", ["Store"]), ("train", ["Dept"]), ("train", ["Date"]),
   ("train", ["Store", "Dept"]), ("features", ["Store"]),
   ("features", ["Date"]), ("stores", ["Type"])]

/-- `WalmartDataLoader.create_indexes`: execute each statement against
the store; `IF NOT EXISTS` adds the index only when absent. -/
def createIndexes (existing : List (String × List String)) :
    List (String × List String) :=
  createIndexesStmts.foldl (fun acc i => if i ∈ acc then acc else acc ++ [i])
    existing

/-- The indexes present after a full Relational Store Builder run: the
run drops and recreates the tables (discarding their indexes) and then
runs `create_indexes` (data_loader.py:224-229). -/
def indexesAfterRun : List (String × List String) := createIndexes []

/-- The index columns listed by the spec (§4.2): `(Store)`, `(Dept)`,
`(Date)`, `(Store, Dept)` on the sales table and `(Store)`, `(Date)` on
the features table.  Modelled from the spec's words for comparison with
`createIndexesStmts`. -/
def specListedIndexes : List (String × List String) :=
  [("train", ["Store"]), ("train", ["Dept"]), ("train", ["Date"]),
   ("train", ["Store", "Dept"]), ("features", ["Store"]),
   ("features", ["Date"])]

/-- C8 as stated is false: after a run the store also holds an index on
`stores(Type)` (data_loader.py:105), which the spec's list omits, so
the store does not contain indexes on exactly the listed columns. -/
theorem c8_indexes_counterexample :
    ¬ (∀ i, i ∈ indexesAfterRun ↔ i ∈ specListedIndexes) := by
  intro h
  have h1 : ("stores", ["Type"]) ∈ indexesAfterRun := by decide
  have h2 : ("stores", ["Type"]) ∉ specListedIndexes := by decide
  exact h2 ((h _).1 h1)

/-- C8, amended: after a run the store contains exactly the
spec-listed indexes plus one more, `(Type)` on the stores table. -/
theorem c8_indexes_amended :
    ∀ i, i ∈ indexesAfterRun ↔
      (i ∈ specListedIndexes ∨ i = ("stores", ["Type"])) := by
  intro i
  have e : indexesAfterRun = createIndexesStmts := by decide
  rw [e]
  simp only [createIndexesStmts, specListedIndexes, List.mem_cons,
    List.not_mem_nil, or_false]
  tauto

end SalesAnalysis
